import Mathlib

/- Verification development for the weather-app repository.

   Shallow embedding conventions:
   * Python `float` values are embedded as `ℚ` (exact rationals); the claims
     settled here do not hinge on binary floating-point rounding.
   * Python `None` is `Option.none`; a Python value that may be `None` has an
     `Option` type.  A JSON object field that may be absent is likewise an
     `Option` field (`dict.get(k)` yields `none` when the key is missing).
   * Calendar dates are embedded as their proleptic-Gregorian ordinal numbers
     (`Int`), mirroring `datetime.date.toordinal`; comparison of Python `date`
     objects coincides with comparison of ordinals.  The date-range validator
     additionally models the textual `YYYY-MM-DD` form.
   * Network I/O is embedded by passing the upstream response as an explicit
     oracle argument: `none` models a transport error, a non-2xx status or an
     unparseable payload (the code's broad `except` converts all of these to
     `None`); `some payload` models a successful decoded response.  The
     normalisations `data.get("daily") or {}` / `daily.get("time") or []`
     are folded into the payload structures: a missing object collapses to
     one with empty lists, which the very next source lines produce anyway.
   * Functions that issue network requests are embedded in a traced form
     returning the list of requests issued, so that "performs no network
     call" and "issues exactly one archive fetch" are statable. -/

namespace WeatherApp

/-- Python truthiness of an optional string: `None` and `""` are falsy. -/
def pyTruthy : Option String → Bool
  | none => false
  | some s => !s.isEmpty

/-! ## src/app/services/weather.py -/

/-- The static code table `WEATHER_CODE_DESC` (weather.py lines 6-28). -/
def WEATHER_CODE_DESC : List (Int × String) :=
  [(0, "Clear sky"), (1, "Mainly clear"), (2, "Partly cloudy"), (3, "Overcast"),
   (45, "Fog"), (48, "Depositing rime fog"),
   (51, "Light drizzle"), (53, "Moderate drizzle"), (55, "Dense drizzle"),
   (61, "Slight rain"), (63, "Moderate rain"), (65, "Heavy rain"),
   (71, "Slight snow"), (73, "Moderate snow"), (75, "Heavy snow"),
   (80, "Rain showers"), (81, "Moderate rain showers"), (82, "Violent rain showers"),
   (95, "Thunderstorm"), (96, "Thunderstorm w/ slight hail"),
   (99, "Thunderstorm w/ heavy hail")]

/-- Python `WEATHER_CODE_DESC.get(code, default)`: the key may itself be
    `None`, in which case the dict lookup misses and yields the default. -/
def dict_get (code : Option Int) (default : String) : String :=
  match code with
  | none => default
  | some c => (WEATHER_CODE_DESC.lookup c).getD default

/-- Rendering of an optional int inside an f-string: `None` prints as
    `"None"`, an int prints in decimal. -/
def fmtOptInt : Option Int → String
  | none => "None"
  | some c => toString c

/-- The description expression at weather.py line 70 (current conditions):
    `WEATHER_CODE_DESC.get(code, f"Code ...")` with NO `None` guard. -/
def descCurrent (code : Option Int) : String :=
  dict_get code ("Code " ++ fmtOptInt code)

/-- The description expression at weather.py lines 130 and 171 (5-day and
    range daily mappings): guarded, `None` becomes the em-dash placeholder. -/
def descDaily (code : Option Int) : String :=
  match code with
  | none => "—"
  | some c => dict_get (some c) ("Code " ++ toString c)

/-- `_c_to_f` (weather.py lines 30-33). -/
def _c_to_f : Option ℚ → Option ℚ
  | none => none
  | some c => some (c * 9 / 5 + 32)

/-- `_mm_to_in` (weather.py lines 35-38). -/
def _mm_to_in : Option ℚ → Option ℚ
  | none => none
  | some mm => some (mm / 25.4)

/-- The `current` object of the Open-Meteo response, after
    `data.get("current") or {}`; each field may be absent or JSON null. -/
structure CurrentPayload where
  temperature_2m : Option ℚ
  apparent_temperature : Option ℚ
  precipitation : Option ℚ
  wind_speed_10m : Option ℚ
  weather_code : Option Int
deriving DecidableEq

/-- The result dict of `get_current_weather` (weather.py lines 75-84). -/
structure CurrentResult where
  temperature_c : Option ℚ
  temperature_f : Option ℚ
  apparent_c : Option ℚ
  apparent_f : Option ℚ
  wind_speed : Option ℚ
  precipitation : Option ℚ
  weather_code : Option Int
  weather_desc : String
deriving DecidableEq

/-- `get_current_weather` (weather.py lines 41-84), with the HTTP exchange
    as an oracle: `none` is any transport/parse failure. -/
def get_current_weather (resp : Option CurrentPayload) : Option CurrentResult :=
  match resp with
  | none => none
  | some cur =>
    some { temperature_c := cur.temperature_2m
           temperature_f := _c_to_f cur.temperature_2m
           apparent_c := cur.apparent_temperature
           apparent_f := _c_to_f cur.apparent_temperature
           wind_speed := cur.wind_speed_10m
           precipitation := cur.precipitation
           weather_code := cur.weather_code
           weather_desc := descCurrent cur.weather_code }

/-- The `daily` object of an Open-Meteo response, after the
    `daily.get(...) or []` normalisations (weather.py lines 120-125 and
    160-165).  Array elements may be JSON null, hence `Option` elements;
    the `time` entries are date strings, embedded as date ordinals. -/
structure DailyPayload where
  time : List Int
  temperature_2m_max : List (Option ℚ)
  temperature_2m_min : List (Option ℚ)
  precipitation_sum : List (Option ℚ)
  weather_code : List (Option Int)
deriving DecidableEq

/-- One row of the daily output (the dict appended at weather.py
    lines 136-146 and 175-181 — the two loop bodies are textually equal). -/
structure DailyRow where
  date : Int
  tmax_c : Option ℚ
  tmax_f : Option ℚ
  tmin_c : Option ℚ
  tmin_f : Option ℚ
  precip_mm : Option ℚ
  precip_in : Option ℚ
  weather_code : Option Int
  weather_desc : String
deriving DecidableEq

/-- The shared loop body: the row built for index `i` (defensive indexing:
    `xs[i] if i < len(xs) else None`).  `time` is only indexed with
    `i < len(time)` at every call site, so the `getD` default is inert. -/
def mk_daily_row (d : DailyPayload) (i : Nat) : DailyRow :=
  let code : Option Int := (d.weather_code[i]?).getD none
  let tmax_c : Option ℚ := (d.temperature_2m_max[i]?).getD none
  let tmin_c : Option ℚ := (d.temperature_2m_min[i]?).getD none
  let prec_mm : Option ℚ := (d.precipitation_sum[i]?).getD none
  { date := d.time.getD i 0
    tmax_c := tmax_c
    tmax_f := _c_to_f tmax_c
    tmin_c := tmin_c
    tmin_f := _c_to_f tmin_c
    precip_mm := prec_mm
    precip_in := _mm_to_in prec_mm
    weather_code := code
    weather_desc := descDaily code }

/-- The mapping loop of `get_forecast_5d` (weather.py lines 127-146):
    `for i in range(min(5, len(times)))`. -/
def forecast_rows (d : DailyPayload) : List DailyRow :=
  (List.range (min 5 d.time.length)).map (mk_daily_row d)

/-- `get_forecast_5d` (weather.py lines 87-148) over the response oracle. -/
def get_forecast_5d (resp : Option DailyPayload) : Option (List DailyRow) :=
  resp.map forecast_rows

/-- The mapping loop of `_daily_rows_from_open_meteo` (weather.py
    lines 167-182): `for i in range(len(times))`, no truncation. -/
def daily_rows_all (d : DailyPayload) : List DailyRow :=
  (List.range d.time.length).map (mk_daily_row d)

/-- `_daily_rows_from_open_meteo` (weather.py lines 150-182) over the
    response oracle. -/
def _daily_rows_from_open_meteo (resp : Option DailyPayload) : Option (List DailyRow) :=
  resp.map daily_rows_all

/-- The two upstream daily-weather endpoints of `get_daily_range`. -/
inductive Endpoint
  | archive
  | forecast
deriving DecidableEq

/-- One outbound daily-rows request: endpoint plus the `start_date` and
    `end_date` parameters (as date ordinals). -/
structure WRequest where
  endpoint : Endpoint
  start_date : Int
  end_date : Int
deriving DecidableEq

/-- `get_daily_range` (weather.py lines 184-239).  `fetch` is the network
    oracle (per endpoint and requested sub-range); `today` is
    `date.today()`.  The second component records the requests issued, in
    order.  The final line of the source is
    `(past or []) + (future or [])` guarded by
    `if past is None and future is None: return None`. -/
def get_daily_range (fetch : Endpoint → Int → Int → Option DailyPayload)
    (today start end_ : Int) : Option (List DailyRow) × List WRequest :=
  if end_ < today then
    (_daily_rows_from_open_meteo (fetch .archive start end_),
     [⟨.archive, start, end_⟩])
  else if today < start then
    (_daily_rows_from_open_meteo (fetch .forecast start end_),
     [⟨.forecast, start, end_⟩])
  else
    let past := _daily_rows_from_open_meteo (fetch .archive start today)
    let future := _daily_rows_from_open_meteo (fetch .forecast today end_)
    (match past, future with
     | none, none => none
     | _, _ => some (past.getD [] ++ future.getD []),
     [⟨.archive, start, today⟩, ⟨.forecast, today, end_⟩])

/-! ## src/app/services/geo.py -/

/-- Python `\s` on the ASCII range (the whitespace class used by
    `LATLON_RE`); non-ASCII whitespace is not modelled. -/
def isPySpace (c : Char) : Bool :=
  c == ' ' || c == '\t' || c == '\n' || c == '\r' || c == '\x0b' || c == '\x0c'

/-- Drop a maximal leading run of whitespace (a greedy `\s*`). -/
def dropSp (l : List Char) : List Char :=
  l.dropWhile isPySpace

/-- Decimal value of a digit run. -/
def digitsToNat (ds : List Char) : Nat :=
  ds.foldl (fun n c => 10 * n + (c.toNat - 48)) 0

/-- Scan one number of the pattern `-?\d+(?:\.\d+)?` at the head of the
    input; returns its value and the rest.  When a dot is not followed by a
    digit the dot is left unconsumed (the regex backtracks out of the
    optional fraction group; the whole match then fails on the dot, since
    no later regex element can consume it). -/
def parseNum (l : List Char) : Option (ℚ × List Char) :=
  let (neg, l1) := match l with
    | '-' :: cs => (true, cs)
    | _ => (false, l)
  let (ds, l2) := l1.span (·.isDigit)
  if ds.isEmpty then none
  else
    let ip : ℚ := (digitsToNat ds : ℚ)
    let (v, rest) := match l2 with
      | '.' :: cs =>
        let (fs, l3) := cs.span (·.isDigit)
        if fs.isEmpty then (ip, l2)
        else (ip + (digitsToNat fs : ℚ) / (10 : ℚ) ^ fs.length, l3)
      | _ => (ip, l2)
    some (if neg then -v else v, rest)

/-- Scan the separator `\s*[, ]\s*` of `LATLON_RE` (geo.py line 8).  With
    backtracking this language is: a whitespace run, one comma-or-space,
    another whitespace run.  If a comma follows the leading run it is the
    `[, ]` character; otherwise some character of the (maximal) leading run
    itself must serve as the `[, ]`, i.e. the run must contain a space. -/
def scanSep (r : List Char) : Option (List Char) :=
  let (w, r2) := r.span isPySpace
  match r2 with
  | ',' :: cs => some (dropSp cs)
  | _ => if w.contains ' ' then some r2 else none

/-- Full-string match of `LATLON_RE`
    (`^\s*(-?\d+(?:\.\d+)?)\s*[, ]\s*(-?\d+(?:\.\d+)?)\s*$`), returning the
    two captured numbers. -/
def scanLatlon (q : String) : Option (ℚ × ℚ) :=
  match parseNum (dropSp q.toList) with
  | none => none
  | some (a, r1) =>
    match scanSep r1 with
    | none => none
    | some r2 =>
      match parseNum r2 with
      | none => none
      | some (b, r3) => if (dropSp r3).isEmpty then some (a, b) else none

/-- Floor of a rational (used only on non-negative arguments below). -/
def ratFloor (q : ℚ) : Int :=
  q.num.fdiv q.den

/-- Round to the nearest integer, ties to even — the rounding of Python's
    fixed-point float formatting. -/
def roundHalfEven (q : ℚ) : Int :=
  let n := ratFloor q
  let frac := q - (n : ℚ)
  if frac < 1 / 2 then n
  else if (1 : ℚ) / 2 < frac then n + 1
  else if n % 2 = 0 then n else n + 1

/-- Left-pad a number to four digits. -/
def pad4 (n : Nat) : String :=
  let s := toString n
  String.mk (List.replicate (4 - s.length) '0') ++ s

/-- Non-negative case of `fmt4`. -/
def fmt4core (q : ℚ) : String :=
  let n := (roundHalfEven (q * 10000)).toNat
  toString (n / 10000) ++ "." ++ pad4 (n % 10000)

/-- The f-string conversion `f"{x:.4f}"`: fixed-point with four decimal
    places (sign, then the rounded magnitude). -/
def fmt4 (q : ℚ) : String :=
  if q < 0 then "-" ++ fmt4core (-q) else fmt4core q

/-- The result dict shape shared by the three resolver paths.  The
    coordinate-parse path (geo.py line 21) builds a dict with only the
    `name`/`lat`/`lon` keys: its `country_code` and `source` keys are
    absent, i.e. `none` here. -/
structure Resolved where
  name : String
  lat : Option ℚ
  lon : Option ℚ
  country_code : Option String
  source : Option String
deriving DecidableEq

/-- `_try_parse_latlon` (geo.py lines 11-21).  The `float()` calls cannot
    raise on a matched digit group, so the `except ValueError` arm is dead. -/
def _try_parse_latlon (q : String) : Option Resolved :=
  match scanLatlon q with
  | none => none
  | some (lat, lon) =>
    some { name := fmt4 lat ++ "," ++ fmt4 lon
           lat := some lat
           lon := some lon
           country_code := none
           source := none }

/-- One entry of the Open-Meteo geocoder's `results` array; every field
    may be absent. -/
structure OMResult where
  name : Option String
  admin1 : Option String
  country : Option String
  latitude : Option ℚ
  longitude : Option ℚ
  country_code : Option String
deriving DecidableEq

/-- `_geocode_open_meteo` (geo.py lines 24-56), over the response oracle
    (`none` = transport/parse error; the list is `data.get("results") or []`).
    `latitude`/`longitude` are copied verbatim from the first result. -/
def _geocode_open_meteo (resp : Option (List OMResult)) : Option Resolved :=
  match resp with
  | none => none
  | some results =>
    match results with
    | [] => none
    | top :: _ =>
      let parts : List (Option String) :=
        [top.name]
          ++ (if pyTruthy top.admin1 then [top.admin1] else [])
          ++ (if pyTruthy top.country then [top.country] else [])
      some { name := String.intercalate ", " ((parts.filter pyTruthy).map (fun p => p.getD ""))
             lat := top.latitude
             lon := top.longitude
             country_code := top.country_code
             source := some "open-meteo" }

/-- Exponent tail of a float literal: optional sign then digits. -/
def expTail (l : List Char) : Option (Int × List Char) :=
  let (eneg, l1) := match l with
    | '-' :: cs => (true, cs)
    | '+' :: cs => (false, cs)
    | _ => (false, l)
  let (es, l2) := l1.span (·.isDigit)
  if es.isEmpty then none
  else some (if eneg then -(digitsToNat es : Int) else (digitsToNat es : Int), l2)

/-- Scale a mantissa by a signed power of ten. -/
def applyExp (m : ℚ) (z : Int) : ℚ :=
  if 0 ≤ z then m * (10 : ℚ) ^ z.toNat else m / (10 : ℚ) ^ (-z).toNat

/-- Python `float(s)` on its decimal forms: optional surrounding
    whitespace, optional sign, digits with optional fraction (at least one
    digit overall), optional exponent.  (`inf`, `nan` and underscore
    separators are not modelled.) -/
def pyFloatStr (s : String) : Option ℚ :=
  let l := dropSp s.toList
  let (neg, l1) := match l with
    | '-' :: cs => (true, cs)
    | '+' :: cs => (false, cs)
    | _ => (false, l)
  let (ds, l2) := l1.span (·.isDigit)
  let (fs, l3) : List Char × List Char := match l2 with
    | '.' :: cs => cs.span (·.isDigit)
    | _ => ([], l2)
  if ds.isEmpty && fs.isEmpty then none
  else
    let m : ℚ := (digitsToNat ds : ℚ) + (digitsToNat fs : ℚ) / (10 : ℚ) ^ fs.length
    let em : Option (ℚ × List Char) :=
      match l3 with
      | 'e' :: cs => (expTail cs).map (fun (p : Int × List Char) => (applyExp m p.1, p.2))
      | 'E' :: cs => (expTail cs).map (fun (p : Int × List Char) => (applyExp m p.1, p.2))
      | _ => some (m, l3)
    match em with
    | none => none
    | some (v, rest) =>
      if (dropSp rest).isEmpty then some (if neg then -v else v) else none

/-- `float(x)` where `x` may be `None`: `float(None)` raises `TypeError`,
    which the caller's `except (TypeError, ValueError)` turns into `None`. -/
def pyFloatOpt : Option String → Option ℚ
  | none => none
  | some s => pyFloatStr s

/-- One entry of the Nominatim response array (`lat`/`lon` are strings). -/
structure NomResult where
  display_name : Option String
  lat : Option String
  lon : Option String
deriving DecidableEq

/-- `_geocode_nominatim` (geo.py lines 59-90) over the response oracle.
    Returns `none` unless both `lat` and `lon` parse as floats. -/
def _geocode_nominatim (resp : Option (List NomResult)) (query : String) : Option Resolved :=
  match resp with
  | none => none
  | some data =>
    match data with
    | [] => none
    | top :: _ =>
      let display_name := match top.display_name with
        | some s => if s.isEmpty then query else s
        | none => query
      match pyFloatOpt top.lat, pyFloatOpt top.lon with
      | some la, some lo =>
        some { name := display_name
               lat := some la
               lon := some lo
               country_code := none
               source := some "nominatim" }
      | _, _ => none

/-- The two network geocoding providers, for the call trace. -/
inductive GeoProvider
  | openMeteo
  | nominatim
deriving DecidableEq

/-- `geocode_one` (geo.py lines 93-115), with the two upstream responses
    as oracles.  The second component records which providers were called,
    in order. -/
def geocode_one (primary : Option (List OMResult)) (fallback : Option (List NomResult))
    (query : String) : Option Resolved × List GeoProvider :=
  match _try_parse_latlon query with
  | some latlon => (some latlon, [])
  | none =>
    match _geocode_open_meteo primary with
    | some result => (some result, [.openMeteo])
    | none =>
      match _geocode_nominatim fallback query with
      | some result => (some result, [.openMeteo, .nominatim])
      | none => (none, [.openMeteo, .nominatim])

/-! ## src/app/services/validators.py -/

/-- A calendar date, as produced by `datetime.strptime(..., "%Y-%m-%d")`. -/
structure PyDate where
  year : Nat
  month : Nat
  day : Nat
deriving DecidableEq

/-- Gregorian leap-year rule (as in `datetime`). -/
def isLeap (y : Nat) : Bool :=
  y % 4 == 0 && (y % 100 != 0 || y % 400 == 0)

/-- Days in a month of a given year. -/
def daysInMonth (y m : Nat) : Nat :=
  if m == 2 then (if isLeap y then 29 else 28)
  else if m == 4 || m == 6 || m == 9 || m == 11 then 30
  else 31

/-- Days in year `y` before month `m`. -/
def daysBeforeMonth (y m : Nat) : Nat :=
  (List.range (m - 1)).foldl (fun acc i => acc + daysInMonth y (i + 1)) 0

/-- `date.toordinal()`: the day number in the proleptic Gregorian calendar
    (0001-01-01 is day 1).  Comparison and subtraction of Python `date`
    objects agree with comparison and subtraction of ordinals, which is how
    the source's `start > end` and `(end - start).days` are embedded. -/
def toOrdinal (d : PyDate) : Nat :=
  365 * (d.year - 1) + (d.year - 1) / 4 - (d.year - 1) / 100 + (d.year - 1) / 400
    + daysBeforeMonth d.year d.month + d.day

/-- Split a character list at every dash (n dashes give n+1 groups, as
    `str.split("-")` would). -/
def splitDashes (l : List Char) : List (List Char) :=
  match l with
  | [] => [[]]
  | c :: cs =>
    if c = '-' then [] :: splitDashes cs
    else
      match splitDashes cs with
      | [] => [[c]]
      | g :: gs => (c :: g) :: gs

/-- A non-empty all-digit group, as matched by a `\d...` group. -/
def parseDigits (l : List Char) : Option Nat :=
  if l.isEmpty then none
  else if l.all (·.isDigit) then some (digitsToNat l) else none

/-- `datetime.strptime(s, "%Y-%m-%d").date()`: the compiled pattern is a
    4-digit year, a dash, a 1-2 digit month, a dash, a 1-2 digit day, with
    nothing left over; then `datetime` validity (year >= 1, month 1-12, day
    within the month) — any violation raises `ValueError`, i.e. `none`. -/
def strptimeYmd (s : String) : Option PyDate :=
  match splitDashes s.toList with
  | [ys, ms, ds] =>
    match parseDigits ys, parseDigits ms, parseDigits ds with
    | some y, some m, some d =>
      if ys.length = 4 ∧ 1 ≤ ms.length ∧ ms.length ≤ 2 ∧ 1 ≤ ds.length ∧ ds.length ≤ 2
          ∧ 1 ≤ y ∧ 1 ≤ m ∧ m ≤ 12 ∧ 1 ≤ d ∧ d ≤ daysInMonth y m then
        some ⟨y, m, d⟩
      else none
    | _, _, _ => none
  | _ => none

/-- `_parse_iso` (validators.py lines 11-17): `None`/empty in, `None` out;
    otherwise `strptime`, with `ValueError` caught to `None`. -/
def _parse_iso (d : Option String) : Option PyDate :=
  match d with
  | none => none
  | some s => if s.isEmpty then none else strptimeYmd s

/-- The three typed validation failures raised as `ValueError`.  The
    range-too-large failure carries the two values interpolated into its
    message (the actual inclusive span and the limit). -/
inductive ValidationError
  | invalidFormat
  | invalidOrder
  | rangeTooLarge (span : Int) (max_days : Int)
deriving DecidableEq

/-- The human-readable message of each failure (validators.py lines 30,
    33 and 37). -/
def errMessage : ValidationError → String
  | .invalidFormat => "Dates must be in YYYY-MM-DD format."
  | .invalidOrder => "Start date must be on or before end date."
  | .rangeTooLarge span max_days =>
    "Date range too large (" ++ toString span ++ " days). Max "
      ++ toString max_days ++ " days."

/-- The `DateRange` dataclass (validators.py lines 6-9); `end` is a Lean
    keyword, hence the field name `end_`. -/
structure DateRange where
  start : PyDate
  end_ : PyDate
deriving DecidableEq

/-- `validate_date_range` (validators.py lines 19-39).  A raised
    `ValueError` is `Except.error`; the Python default for `max_days`
    is 31. -/
def validate_date_range (start_s end_s : Option String) (max_days : Int) :
    Except ValidationError (Option DateRange) :=
  if !pyTruthy start_s && !pyTruthy end_s then .ok none
  else
    match _parse_iso start_s, _parse_iso end_s with
    | some start, some end_ =>
      if toOrdinal end_ < toOrdinal start then .error .invalidOrder
      else
        let span : Int := (toOrdinal end_ : Int) - (toOrdinal start : Int) + 1
        if max_days < span then .error (.rangeTooLarge span max_days)
        else .ok (some ⟨start, end_⟩)
    | _, _ => .error .invalidFormat

/-! ## Helper lemmas -/

theorem map_getD_range (l : List Int) :
    (List.range l.length).map (fun i => l.getD i 0) = l := by
  apply List.ext_getElem (by simp)
  intro i h1 h2
  simp [List.getD_eq_getElem?_getD, List.getElem?_eq_getElem h2]

/-- The dates of the untruncated daily mapping are exactly the upstream
    `time` array. -/
theorem dates_daily_rows_all (d : DailyPayload) :
    (daily_rows_all d).map DailyRow.date = d.time := by
  unfold daily_rows_all
  rw [List.map_map]
  have h : (DailyRow.date ∘ mk_daily_row d) = fun i => d.time.getD i 0 :=
    funext fun i => rfl
  rw [h]
  exact map_getD_range d.time

/-! ## Claims -/

/-- C8: each mapped daily record's Fahrenheit (resp. inch) fields equal the
    converter applied independently to its Celsius (resp. millimetre)
    fields, and the converters return null iff their input is null,
    otherwise `c * 9/5 + 32` resp. `mm / 25.4`. -/
theorem C8_unit_conversion_roundtrip :
    (∀ (d : DailyPayload) (i : Nat),
        (mk_daily_row d i).tmax_f = _c_to_f (mk_daily_row d i).tmax_c ∧
        (mk_daily_row d i).tmin_f = _c_to_f (mk_daily_row d i).tmin_c ∧
        (mk_daily_row d i).precip_in = _mm_to_in (mk_daily_row d i).precip_mm) ∧
    _c_to_f none = none ∧
    (∀ c : ℚ, _c_to_f (some c) = some (c * 9 / 5 + 32) ∧ (_c_to_f (some c)).isSome = true) ∧
    _mm_to_in none = none ∧
    (∀ mm : ℚ, _mm_to_in (some mm) = some (mm / 25.4) ∧ (_mm_to_in (some mm)).isSome = true) :=
  ⟨fun _ _ => ⟨rfl, rfl, rfl⟩, rfl, fun _ => ⟨rfl, rfl⟩, rfl, fun _ => ⟨rfl, rfl⟩⟩

/-- C9: the arbitrary-range mapping applies no truncation — a successful
    range fetch yields exactly one record per entry of the upstream `time`
    array, every day passed through in order. -/
theorem C9_range_mapping_passthrough (d : DailyPayload) :
    _daily_rows_from_open_meteo (some d) = some (daily_rows_all d) ∧
    (daily_rows_all d).length = d.time.length ∧
    (daily_rows_all d).map DailyRow.date = d.time :=
  ⟨rfl, by simp [daily_rows_all], dates_daily_rows_all d⟩

/-- C7: the 5-day mapping yields at most 5 records however long the
    upstream `time` array is, and any field whose source array is too
    short comes out null instead of failing; the mapping is total. -/
theorem C7_forecast_defensive (d : DailyPayload) :
    get_forecast_5d (some d) = some (forecast_rows d) ∧
    (forecast_rows d).length = min 5 d.time.length ∧
    (forecast_rows d).length ≤ 5 ∧
    forecast_rows d = (List.range (min 5 d.time.length)).map (mk_daily_row d) ∧
    ∀ i : Nat,
      (d.temperature_2m_max.length ≤ i →
        (mk_daily_row d i).tmax_c = none ∧ (mk_daily_row d i).tmax_f = none) ∧
      (d.temperature_2m_min.length ≤ i →
        (mk_daily_row d i).tmin_c = none ∧ (mk_daily_row d i).tmin_f = none) ∧
      (d.precipitation_sum.length ≤ i →
        (mk_daily_row d i).precip_mm = none ∧ (mk_daily_row d i).precip_in = none) ∧
      (d.weather_code.length ≤ i →
        (mk_daily_row d i).weather_code = none ∧ (mk_daily_row d i).weather_desc = "—") := by
  refine ⟨rfl, by simp [forecast_rows], ?_, rfl, ?_⟩
  · simp only [forecast_rows, List.length_map, List.length_range]
    omega
  · intro i
    refine ⟨fun h => ?_, fun h => ?_, fun h => ?_, fun h => ?_⟩ <;>
      simp [mk_daily_row, List.getElem?_eq_none h, _c_to_f, _mm_to_in, descDaily]

/-- C7 witness: a payload with 7 days is truncated to 5 records, and an
    index past the end of the one-element `temperature_2m_max` array gives
    a null `tmax_c`. -/
theorem C7_forecast_defensive_witness :
    (forecast_rows ⟨[10, 11, 12, 13, 14, 15, 16], [some 1], [], [], []⟩).length ≤ 5 ∧
    (mk_daily_row ⟨[10, 11, 12, 13, 14, 15, 16], [some 1], [], [], []⟩ 1).tmax_c = none :=
  ⟨(C7_forecast_defensive _).2.2.1,
   (((C7_forecast_defensive ⟨[10, 11, 12, 13, 14, 15, 16], [some 1], [], [], []⟩).2.2.2.2 1).1
      (by decide)).1⟩

/-- C6 (amended): a known code yields its fixed description and an
    unrecognized code the synthesized `"Code <c>"` label at every site; a
    null code yields the em-dash placeholder at the two daily-mapping
    sites, but the current-conditions site (which has no null guard)
    yields the synthesized `"Code None"` label instead; the lookup is a
    total function. -/
theorem C6_description_sites :
    (∀ (c : Int) (s : String), WEATHER_CODE_DESC.lookup c = some s →
        descCurrent (some c) = s ∧ descDaily (some c) = s) ∧
    (∀ c : Int, WEATHER_CODE_DESC.lookup c = none →
        descCurrent (some c) = "Code " ++ toString c ∧
        descDaily (some c) = "Code " ++ toString c) ∧
    descCurrent none = "Code None" ∧
    descDaily none = "—" ∧
    (∀ cur : CurrentPayload,
        (get_current_weather (some cur)).map CurrentResult.weather_desc =
          some (descCurrent cur.weather_code)) ∧
    (∀ (d : DailyPayload) (i : Nat),
        (mk_daily_row d i).weather_desc = descDaily ((d.weather_code[i]?).getD none)) := by
  refine ⟨?_, ?_, rfl, rfl, fun cur => rfl, fun d i => rfl⟩
  · intro c s h
    constructor <;> simp [descCurrent, descDaily, dict_get, fmtOptInt, h]
  · intro c h
    constructor <;> simp [descCurrent, descDaily, dict_get, fmtOptInt, h]

/-- C6 witness: code 63 is described as "Moderate rain" at both kinds of
    site. -/
theorem C6_description_sites_witness :
    descCurrent (some 63) = "Moderate rain" ∧ descDaily (some 63) = "Moderate rain" :=
  C6_description_sites.1 63 "Moderate rain" rfl

/-- C6 counterexample: at the current-conditions site a null weather code
    produces the synthesized label "Code None", not the em-dash
    placeholder, refuting the claim that a null code yields the em-dash
    wherever a description is computed. -/
theorem C6_description_sites_counterexample :
    (get_current_weather (some ⟨none, none, none, none, none⟩)).map
      CurrentResult.weather_desc = some "Code None" ∧
    ("Code None" : String) ≠ "—" :=
  ⟨rfl, by decide⟩

/-- C1: for a valid range, `get_daily_range` classifies against today and
    dispatches exactly as specified — a past range issues one archive
    fetch for the whole range and returns its mapped records, a future
    range one forecast fetch, and a straddling range issues an archive
    fetch for the left half up to today and a forecast fetch from today,
    returning archive records before forecast records. -/
theorem C1_range_dispatch (fetch : Endpoint → Int → Int → Option DailyPayload)
    (today start end_ : Int) (hrange : start ≤ end_) :
    (end_ < today →
      get_daily_range fetch today start end_ =
        (_daily_rows_from_open_meteo (fetch .archive start end_),
         [⟨.archive, start, end_⟩])) ∧
    (today < start →
      get_daily_range fetch today start end_ =
        (_daily_rows_from_open_meteo (fetch .forecast start end_),
         [⟨.forecast, start, end_⟩])) ∧
    (start ≤ today → today ≤ end_ →
      (get_daily_range fetch today start end_).2 =
        [⟨.archive, start, today⟩, ⟨.forecast, today, end_⟩] ∧
      ∀ pa pf : DailyPayload,
        fetch .archive start today = some pa → fetch .forecast today end_ = some pf →
        (get_daily_range fetch today start end_).1 =
          some (daily_rows_all pa ++ daily_rows_all pf)) := by
  refine ⟨fun h1 => ?_, fun h2 => ?_, fun h3 h4 => ?_⟩
  · unfold get_daily_range
    rw [if_pos h1]
  · unfold get_daily_range
    rw [if_neg (by omega), if_pos h2]
  · unfold get_daily_range
    rw [if_neg (by omega), if_neg (by omega)]
    refine ⟨rfl, fun pa pf hpa hpf => ?_⟩
    simp [_daily_rows_from_open_meteo, hpa, hpf]

/-- C1 witness: with today = 5, the fully-past range 1..3 is dispatched as
    a single archive request for 1..3 (here the fetch fails, so the call
    returns null). -/
theorem C1_range_dispatch_witness :
    get_daily_range (fun _ _ _ => none) 5 1 3 = (none, [⟨.archive, 1, 3⟩]) :=
  (C1_range_dispatch (fun _ _ _ => none) 5 1 3 (by decide)).1 (by decide)

/-- C2: failure policy of `get_daily_range` — in the straddling case the
    call returns null iff both sub-fetches return null, and if exactly one
    fails the other's records are returned; in the non-straddling cases a
    single fetch failure fails the whole call. -/
theorem C2_failure_policy (fetch : Endpoint → Int → Int → Option DailyPayload)
    (today start end_ : Int) :
    (start ≤ today → today ≤ end_ →
      ((get_daily_range fetch today start end_).1 = none ↔
        fetch .archive start today = none ∧ fetch .forecast today end_ = none) ∧
      (∀ pf, fetch .archive start today = none → fetch .forecast today end_ = some pf →
        (get_daily_range fetch today start end_).1 = some (daily_rows_all pf)) ∧
      (∀ pa, fetch .archive start today = some pa → fetch .forecast today end_ = none →
        (get_daily_range fetch today start end_).1 = some (daily_rows_all pa))) ∧
    (end_ < today → fetch .archive start end_ = none →
      (get_daily_range fetch today start end_).1 = none) ∧
    (start ≤ end_ → today < start → fetch .forecast start end_ = none →
      (get_daily_range fetch today start end_).1 = none) := by
  refine ⟨fun h1 h2 => ?_, fun h1 h2 => ?_, fun h0 h1 h2 => ?_⟩
  · unfold get_daily_range
    rw [if_neg (by omega), if_neg (by omega)]
    refine ⟨?_, fun pf ha hf => ?_, fun pa ha hf => ?_⟩
    · cases ha : fetch .archive start today <;> cases hf : fetch .forecast today end_ <;>
        simp [_daily_rows_from_open_meteo, ha, hf]
    · simp [_daily_rows_from_open_meteo, ha, hf]
    · simp [_daily_rows_from_open_meteo, ha, hf]
  · unfold get_daily_range
    rw [if_pos h1]
    simp [_daily_rows_from_open_meteo, h2]
  · unfold get_daily_range
    rw [if_neg (by omega), if_pos h1]
    simp [_daily_rows_from_open_meteo, h2]

/-- C2 witness: for the straddling range 0..2 with today = 1, a failed
    archive sub-fetch and a successful forecast sub-fetch yield exactly
    the forecast records, not null. -/
theorem C2_failure_policy_witness :
    (get_daily_range (fun ep _ _ => match ep with
        | .archive => none
        | .forecast => some ⟨[1, 2], [], [], [], []⟩) 1 0 2).1 =
      some (daily_rows_all ⟨[1, 2], [], [], [], []⟩) :=
  ((C2_failure_policy (fun ep _ _ => match ep with
        | .archive => none
        | .forecast => some ⟨[1, 2], [], [], [], []⟩) 1 0 2).1
      (by decide) (by decide)).2.1 ⟨[1, 2], [], [], [], []⟩ rfl rfl

/-- The ascending list of date ordinals from `a` to `b` inclusive (the
    dates an upstream response covers when it covers exactly the requested
    inclusive sub-range in ascending order). -/
def rangeAsc (a b : Int) : List Int :=
  List.map (fun i : Nat => a + (i : Int)) (List.range (b + 1 - a).toNat)

theorem mem_rangeAsc {a b x : Int} (h : x ∈ rangeAsc a b) : a ≤ x ∧ x ≤ b := by
  simp only [rangeAsc, List.mem_map, List.mem_range] at h
  obtain ⟨i, hi, rfl⟩ := h
  omega

theorem left_mem_rangeAsc {a b : Int} (h : a ≤ b) : a ∈ rangeAsc a b := by
  simp only [rangeAsc, List.mem_map, List.mem_range]
  exact ⟨0, by omega, by omega⟩

theorem right_mem_rangeAsc {a b : Int} (h : a ≤ b) : b ∈ rangeAsc a b := by
  simp only [rangeAsc, List.mem_map, List.mem_range]
  exact ⟨(b - a).toNat, by omega, by omega⟩

theorem rangeAsc_pairwise_lt (a b : Int) : (rangeAsc a b).Pairwise (· < ·) := by
  unfold rangeAsc
  refine List.Pairwise.map _ (fun i j hij => ?_) (List.pairwise_lt_range _)
  omega

theorem rangeAsc_nodup (a b : Int) : (rangeAsc a b).Nodup :=
  (rangeAsc_pairwise_lt a b).imp (fun h => ne_of_lt h)

/-- C3 counterexample: for the straddling range 0..2 with today = 1, where
    both upstream responses cover exactly their requested inclusive
    sub-ranges in ascending order, the merged series has date list
    [0, 1, 1, 2] — the boundary day appears twice, so the successful
    result is not duplicate-free. -/
theorem C3_series_validity_counterexample :
    ((get_daily_range (fun ep _ _ => match ep with
        | .archive => some ⟨[0, 1], [], [], [], []⟩
        | .forecast => some ⟨[1, 2], [], [], [], []⟩) 1 0 2).1.map
      (fun rows => rows.map DailyRow.date)) = some [0, 1, 1, 2] ∧
    ((get_daily_range (fun ep _ _ => match ep with
        | .archive => some ⟨[0, 1], [], [], [], []⟩
        | .forecast => some ⟨[1, 2], [], [], [], []⟩) 1 0 2).1.map
      (fun rows => decide (rows.map DailyRow.date).Nodup)) = some false :=
  ⟨rfl, rfl⟩

/-- C3 (amended): a successful straddling merge, when each upstream
    response covers exactly its requested inclusive sub-range in ascending
    order, is in non-decreasing date order and contains every date at most
    once — except the boundary day "today", which appears exactly twice
    (once from the archive half and once from the forecast half). -/
theorem C3_merge_boundary_duplicate (fetch : Endpoint → Int → Int → Option DailyPayload)
    (today start end_ : Int) (pa pf : DailyPayload)
    (h1 : start ≤ today) (h2 : today ≤ end_)
    (ha : fetch .archive start today = some pa)
    (hf : fetch .forecast today end_ = some pf)
    (hta : pa.time = rangeAsc start today)
    (htf : pf.time = rangeAsc today end_) :
    ∃ rows : List DailyRow,
      (get_daily_range fetch today start end_).1 = some rows ∧
      rows.map DailyRow.date = rangeAsc start today ++ rangeAsc today end_ ∧
      (rows.map DailyRow.date).Pairwise (· ≤ ·) ∧
      (rows.map DailyRow.date).count today = 2 ∧
      ∀ d : Int, d ≠ today → (rows.map DailyRow.date).count d ≤ 1 := by
  have hdates : (daily_rows_all pa ++ daily_rows_all pf).map DailyRow.date =
      rangeAsc start today ++ rangeAsc today end_ := by
    rw [List.map_append, dates_daily_rows_all, dates_daily_rows_all, hta, htf]
  refine ⟨daily_rows_all pa ++ daily_rows_all pf, ?_, hdates, ?_, ?_, ?_⟩
  · unfold get_daily_range
    rw [if_neg (by omega), if_neg (by omega)]
    simp [_daily_rows_from_open_meteo, ha, hf]
  · rw [hdates]
    refine List.pairwise_append.mpr ⟨(rangeAsc_pairwise_lt _ _).imp (fun h => le_of_lt h),
      (rangeAsc_pairwise_lt _ _).imp (fun h => le_of_lt h), fun x hx y hy => ?_⟩
    exact le_trans (mem_rangeAsc hx).2 (mem_rangeAsc hy).1
  · rw [hdates, List.count_append,
      List.count_eq_one_of_mem (rangeAsc_nodup _ _) (right_mem_rangeAsc h1),
      List.count_eq_one_of_mem (rangeAsc_nodup _ _) (left_mem_rangeAsc h2)]
  · intro d hd
    rw [hdates, List.count_append]
    by_cases hmem : d ∈ rangeAsc start today
    · have hle : d ≤ today := (mem_rangeAsc hmem).2
      have hnot : d ∉ rangeAsc today end_ :=
        fun hm => hd (le_antisymm hle (mem_rangeAsc hm).1)
      rw [List.count_eq_zero.mpr hnot]
      have := List.nodup_iff_count_le_one.mp (rangeAsc_nodup start today) d
      omega
    · rw [List.count_eq_zero.mpr hmem]
      have := List.nodup_iff_count_le_one.mp (rangeAsc_nodup today end_) d
      omega

/-- C3 witness: in the concrete straddling merge of 0..1 and 1..2 the
    boundary date 1 occurs exactly twice in the returned series. -/
theorem C3_merge_boundary_duplicate_witness :
    ((get_daily_range (fun ep _ _ => match ep with
        | .archive => some ⟨[0, 1], [], [], [], []⟩
        | .forecast => some ⟨[1, 2], [], [], [], []⟩) 1 0 2).1.map
      (fun rows => (rows.map DailyRow.date).count 1)) = some 2 := by
  obtain ⟨rows, hsome, _, _, hcount, _⟩ :=
    C3_merge_boundary_duplicate (fun ep _ _ => match ep with
        | .archive => some ⟨[0, 1], [], [], [], []⟩
        | .forecast => some ⟨[1, 2], [], [], [], []⟩) 1 0 2
      ⟨[0, 1], [], [], [], []⟩ ⟨[1, 2], [], [], [], []⟩
      (by decide) (by decide) rfl rfl (by decide) (by decide)
  rw [hsome]
  simpa using hcount

/-- C4: `validate_date_range` returns null iff both inputs are
    empty/absent; otherwise it fails `InvalidFormat` when either input
    fails to parse as YYYY-MM-DD, `InvalidOrder` when start > end,
    `RangeTooLarge` — carrying the actual inclusive span and the limit in
    its message — when the span exceeds `max_days`, and else returns the
    range, which then satisfies start <= end and span <= max_days. -/
theorem C4_validator (start_s end_s : Option String) (max_days : Int) :
    (validate_date_range start_s end_s max_days = .ok none ↔
      pyTruthy start_s = false ∧ pyTruthy end_s = false) ∧
    (pyTruthy start_s = true ∨ pyTruthy end_s = true →
      ((_parse_iso start_s = none ∨ _parse_iso end_s = none) →
        validate_date_range start_s end_s max_days = .error .invalidFormat) ∧
      (∀ ps pe : PyDate, _parse_iso start_s = some ps → _parse_iso end_s = some pe →
        (toOrdinal pe < toOrdinal ps →
          validate_date_range start_s end_s max_days = .error .invalidOrder) ∧
        (toOrdinal ps ≤ toOrdinal pe →
          (max_days < (toOrdinal pe : Int) - (toOrdinal ps : Int) + 1 →
            validate_date_range start_s end_s max_days =
              .error (.rangeTooLarge ((toOrdinal pe : Int) - (toOrdinal ps : Int) + 1) max_days) ∧
            errMessage (.rangeTooLarge ((toOrdinal pe : Int) - (toOrdinal ps : Int) + 1) max_days) =
              "Date range too large ("
                ++ toString ((toOrdinal pe : Int) - (toOrdinal ps : Int) + 1)
                ++ " days). Max " ++ toString max_days ++ " days.") ∧
          ((toOrdinal pe : Int) - (toOrdinal ps : Int) + 1 ≤ max_days →
            validate_date_range start_s end_s max_days = .ok (some ⟨ps, pe⟩) ∧
            toOrdinal ps ≤ toOrdinal pe ∧
            (toOrdinal pe : Int) - (toOrdinal ps : Int) + 1 ≤ max_days)))) := by
  by_cases hb : (!pyTruthy start_s && !pyTruthy end_s) = true
  · rw [Bool.and_eq_true, Bool.not_eq_true', Bool.not_eq_true'] at hb
    obtain ⟨hf1, hf2⟩ := hb
    refine ⟨?_, ?_⟩
    · unfold validate_date_range
      simp [hf1, hf2]
    · intro hp
      rcases hp with hp | hp
      · simp [hf1] at hp
      · simp [hf2] at hp
  · have hcomp : validate_date_range start_s end_s max_days =
        (match _parse_iso start_s, _parse_iso end_s with
         | some start, some end_ =>
            if toOrdinal end_ < toOrdinal start then .error .invalidOrder
            else
              let span : Int := (toOrdinal end_ : Int) - (toOrdinal start : Int) + 1
              if max_days < span then .error (.rangeTooLarge span max_days)
              else .ok (some ⟨start, end_⟩)
         | _, _ => .error .invalidFormat) := by
      unfold validate_date_range
      rw [if_neg hb]
    refine ⟨?_, fun _ => ⟨?_, fun ps pe hps hpe => ?_⟩⟩
    · have hne : ¬(pyTruthy start_s = false ∧ pyTruthy end_s = false) := by
        intro hpair
        exact hb (by simp [hpair.1, hpair.2])
      refine iff_of_false ?_ hne
      rw [hcomp]
      cases _parse_iso start_s <;> cases _parse_iso end_s
      · simp
      · simp
      · simp
      · dsimp only
        split
        · simp
        · split <;> simp
    · intro hor
      rw [hcomp]
      rcases hor with h | h
      · rw [h]
      · rw [h]
        cases _parse_iso start_s <;> rfl
    · rw [hcomp, hps, hpe]
      dsimp only
      refine ⟨fun hlt => ?_, fun hle =>
        ⟨fun hbig => ⟨?_, rfl⟩, fun hsmall => ⟨?_, hle, hsmall⟩⟩⟩
      · rw [if_pos hlt]
      · rw [if_neg (by omega), if_pos hbig]
      · rw [if_neg (by omega), if_neg (by omega)]

/-- C4 witness: a 36-day span with the default 31-day limit fails with a
    range-too-large error carrying the actual span (36) and the limit. -/
theorem C4_validator_witness :
    validate_date_range (some "2025-01-01") (some "2025-02-05") 31 =
      .error (.rangeTooLarge 36 31) :=
  ((((C4_validator (some "2025-01-01") (some "2025-02-05") 31).2 (Or.inl rfl)).2
      ⟨2025, 1, 1⟩ ⟨2025, 2, 5⟩ rfl rfl).2 (by decide)).1 (by decide) |>.1

/-- C5 (amended): an input matching the coordinate pattern makes the
    resolver return immediately — issuing no network call — a location
    whose latitude and longitude are the two parsed numbers and whose
    display name joins both numbers rounded to 4 decimal places with a
    comma; the returned dict carries no source/provider key at all
    (`source = none`). -/
theorem C5_coordinate_parse (q : String) (r : Resolved)
    (h : _try_parse_latlon q = some r) :
    (∀ primary fallback, geocode_one primary fallback q = (some r, [])) ∧
    ∃ lat lon : ℚ, scanLatlon q = some (lat, lon) ∧
      r.lat = some lat ∧ r.lon = some lon ∧
      r.name = fmt4 lat ++ "," ++ fmt4 lon ∧ r.source = none := by
  refine ⟨fun primary fallback => ?_, ?_⟩
  · unfold geocode_one
    rw [h]
  · unfold _try_parse_latlon at h
    cases hs : scanLatlon q with
    | none =>
      rw [hs] at h
      exact absurd h (by simp)
    | some p =>
      obtain ⟨lat, lon⟩ := p
      rw [hs] at h
      injection h with h2
      subst h2
      exact ⟨lat, lon, rfl, rfl, rfl, rfl, rfl⟩

/-- C5 witness: "40.7128, -74.0060" is resolved locally with no provider
    called, the parsed coordinates, and the 4-decimal display name. -/
theorem C5_coordinate_parse_witness :
    geocode_one none none "40.7128, -74.0060" =
      (some ⟨"40.7128,-74.0060", some (40.7128 : ℚ), some (-74.0060 : ℚ), none, none⟩, []) :=
  (C5_coordinate_parse "40.7128, -74.0060"
      ⟨"40.7128,-74.0060", some (40.7128 : ℚ), some (-74.0060 : ℚ), none, none⟩
      (by with_unfolding_all rfl)).1 none none

/-- C5 counterexample: at the concrete coordinate input "1,2" the resolver
    result's source field is absent (none), not the value "coordinates"
    the claim requires. -/
theorem C5_coordinate_parse_counterexample :
    ((geocode_one none none "1,2").1.map Resolved.source) = some none ∧
    some (some "coordinates") ≠ ((geocode_one none none "1,2").1.map Resolved.source) := by
  have hv : ((geocode_one none none "1,2").1.map Resolved.source) = some none := by
    with_unfolding_all rfl
  refine ⟨hv, ?_⟩
  rw [hv]
  simp

/-- Helper: the coordinate-parse path always carries numeric coordinates. -/
theorem latlon_lat_isSome (q : String) (r : Resolved) (h : _try_parse_latlon q = some r) :
    r.lat.isSome = true ∧ r.lon.isSome = true := by
  unfold _try_parse_latlon at h
  cases hs : scanLatlon q with
  | none =>
    rw [hs] at h
    exact absurd h (by simp)
  | some p =>
    obtain ⟨lat, lon⟩ := p
    rw [hs] at h
    injection h with h2
    subst h2
    exact ⟨rfl, rfl⟩

/-- Helper: the fallback geocoder only succeeds with numeric coordinates. -/
theorem nominatim_lat_isSome (resp : Option (List NomResult)) (q : String) (r : Resolved)
    (h : _geocode_nominatim resp q = some r) :
    r.lat.isSome = true ∧ r.lon.isSome = true := by
  unfold _geocode_nominatim at h
  cases resp with
  | none => exact absurd h (by simp)
  | some data =>
    cases data with
    | nil => exact absurd h (by simp)
    | cons top rest =>
      dsimp only at h
      cases h1 : pyFloatOpt top.lat with
      | none =>
        rw [h1] at h
        exact absurd h (by simp)
      | some la =>
        cases h2 : pyFloatOpt top.lon with
        | none =>
          rw [h1, h2] at h
          exact absurd h (by simp)
        | some lo =>
          rw [h1, h2] at h
          injection h with h3
          subst h3
          exact ⟨rfl, rfl⟩

/-- Helper: a primary-geocoder success is always tagged "open-meteo". -/
theorem openmeteo_source (resp : Option (List OMResult)) (r : Resolved)
    (h : _geocode_open_meteo resp = some r) : r.source = some "open-meteo" := by
  unfold _geocode_open_meteo at h
  cases resp with
  | none => exact absurd h (by simp)
  | some results =>
    cases results with
    | nil => exact absurd h (by simp)
    | cons top rest =>
      dsimp only at h
      injection h with h3
      rw [← h3]

/-- C10: the primary geocoder copies latitude/longitude verbatim from the
    first upstream result, so it can resolve with null coordinates when
    upstream omits them; the fallback geocoder and the coordinate-parse
    path only ever return numeric coordinates; hence a resolved location
    with a null latitude can only have come from the primary path. -/
theorem C10_geocoder_nullability :
    (_geocode_open_meteo (some [⟨some "Springfield", none, none, none, none, none⟩]) =
      some ⟨"Springfield", none, none, none, some "open-meteo"⟩) ∧
    (∀ (resp : Option (List NomResult)) (q : String) (r : Resolved),
        _geocode_nominatim resp q = some r → r.lat.isSome = true ∧ r.lon.isSome = true) ∧
    (∀ (q : String) (r : Resolved),
        _try_parse_latlon q = some r → r.lat.isSome = true ∧ r.lon.isSome = true) ∧
    (∀ (primary : Option (List OMResult)) (fallback : Option (List NomResult))
        (q : String) (r : Resolved),
        (geocode_one primary fallback q).1 = some r → r.lat = none →
        r.source = some "open-meteo") := by
  refine ⟨rfl, nominatim_lat_isSome, latlon_lat_isSome, ?_⟩
  intro primary fallback q r h hlat
  unfold geocode_one at h
  cases h0 : _try_parse_latlon q with
  | some r0 =>
    rw [h0] at h
    dsimp only at h
    injection h with h3
    subst h3
    have hsome := (latlon_lat_isSome q r0 h0).1
    rw [hlat] at hsome
    simp at hsome
  | none =>
    rw [h0] at h
    cases h1 : _geocode_open_meteo primary with
    | some r1 =>
      rw [h1] at h
      dsimp only at h
      injection h with h3
      subst h3
      exact openmeteo_source primary r1 h1
    | none =>
      rw [h1] at h
      cases h2 : _geocode_nominatim fallback q with
      | some r2 =>
        rw [h2] at h
        dsimp only at h
        injection h with h3
        subst h3
        have hsome := (nominatim_lat_isSome fallback q r2 h2).1
        rw [hlat] at hsome
        simp at hsome
      | none =>
        rw [h2] at h
        exact absurd h (by simp)

/-- C10 witness: a primary-geocoder response whose first result omits
    latitude and longitude resolves to a location with null coordinates,
    and that location is tagged as coming from the primary geocoder. -/
theorem C10_geocoder_nullability_witness :
    (geocode_one (some [⟨some "Springfield", none, none, none, none, none⟩]) none
        "Springfield").1 = some ⟨"Springfield", none, none, none, some "open-meteo"⟩ ∧
    Resolved.source ⟨"Springfield", none, none, none, some "open-meteo"⟩ =
      some "open-meteo" :=
  ⟨rfl, C10_geocoder_nullability.2.2.2 (some [⟨some "Springfield", none, none, none, none, none⟩])
    none "Springfield" ⟨"Springfield", none, none, none, some "open-meteo"⟩ rfl rfl⟩

end WeatherApp
